import Mathlib

/-
Verification of the korean-stocks analytics and collection pipeline.

This file gives a shallow embedding, in Lean 4, of the parts of the backend
that the specification talks about: the rate limiter, the upsert/merge steps
of the collectors, the momentum scorer, the volume-spike screener, the
disclosure/news read paths of the correlation engine, and the job scheduler
wrapper.  Dates are modelled as integers (day numbers), Python ints as ℤ and
Python floats as exact rationals ℚ.  Database rows are Lean structures whose
nullable columns are Option fields; a stored table is a list of rows.
Fallible Python code (raising) is modelled with Except.
-/

/-! ## Data model (models/stock.py, models/disclosure.py, models/news.py) -/

/-- Row of the daily_prices table: one OHLCV bar for one ticker on one date.
Integer columns are ℤ, the float column change_pct is ℚ, nullable columns are
Option. -/
structure DailyPrice where
  ticker : String
  date : ℤ
  open_ : Option ℤ
  high : Option ℤ
  low : Option ℤ
  close : Option ℤ
  volume : Option ℤ
  trading_value : Option ℤ
  change_pct : Option ℚ
deriving DecidableEq, Repr

/-- Row of the market_fundamentals table: one fundamentals snapshot for one
ticker on one date. -/
structure MarketFundamentals where
  ticker : String
  date : ℤ
  market_cap : Option ℤ
  per : Option ℚ
  pbr : Option ℚ
  div_yield : Option ℚ
  eps : Option ℤ
  bps : Option ℤ
  dps : Option ℤ
deriving DecidableEq, Repr

/-- Row of the dart_disclosures table (fields relevant to the read/collect
paths under verification). -/
structure DartDisclosure where
  rcept_no : String
  ticker : Option String
  report_nm : String
  flr_nm : String
  rcept_dt : Option ℤ
  disclosure_url : String
deriving DecidableEq, Repr

/-- Row of the news_articles table (fields relevant to the fetch/dedup
path under verification). -/
structure NewsArticle where
  ticker : Option String
  title : Option String
  source : Option String
  url : String
  published_at : Option ℤ
deriving DecidableEq, Repr

/-! ## Rate limiter (utils/rate_limiter.py) -/

/-- State of AsyncRateLimiter: the enforced minimum interval between calls and
the monotonic timestamp of the last granted call. -/
structure AsyncRateLimiter where
  min_interval : ℚ
  last_call : ℚ
deriving DecidableEq, Repr

/-- Constructor of AsyncRateLimiter: raises ValueError when calls_per_second
is non-positive, otherwise stores min_interval = 1 / calls_per_second and
last_call = 0. -/
def AsyncRateLimiter.init (calls_per_second : ℚ) : Except String AsyncRateLimiter :=
  if calls_per_second ≤ 0 then
    Except.error "calls_per_second must be positive"
  else
    Except.ok { min_interval := 1 / calls_per_second, last_call := 0 }

/-! ## Job scheduler wrapper (jobs/scheduler.py) -/

/-- World of storage sessions: the list of currently open session ids and the
next fresh id the session factory will hand out. -/
structure SessionWorld where
  openSessions : List Nat
  nextId : Nat
deriving DecidableEq, Repr

/-- SessionLocal(): open a fresh storage session, returning its id and the
updated world. -/
def SessionLocal (w : SessionWorld) : Nat × SessionWorld :=
  (w.nextId, { openSessions := w.nextId :: w.openSessions, nextId := w.nextId + 1 })

/-- db.close(): remove a session id from the set of open sessions. -/
def closeSession (w : SessionWorld) (s : Nat) : SessionWorld :=
  { w with openSessions := w.openSessions.erase s }

/-- Observable events of one run of the job wrapper, in order. -/
inductive JobEvent where
  | sessionOpened (id : Nat)
  | bodyReturned (id : Nat)
  | bodyRaised (id : Nat)
  | sessionClosed (id : Nat)
deriving DecidableEq, Repr

/-- Model of _job_wrapper: open a fresh session, run the body on it inside
try/except Exception (the handler only logs), and close the session in the
finally block.  The returned Except is what the wrapper itself raises to its
caller; the event list is the order in which the side effects happened. -/
def _job_wrapper (w : SessionWorld) (fn : Nat → Except String String) :
    SessionWorld × List JobEvent × Except String Unit :=
  let db := (SessionLocal w).1
  let w1 := (SessionLocal w).2
  match fn db with
  | Except.ok _ =>
      (closeSession w1 db,
       [JobEvent.sessionOpened db, JobEvent.bodyReturned db, JobEvent.sessionClosed db],
       Except.ok ())
  | Except.error _ =>
      (closeSession w1 db,
       [JobEvent.sessionOpened db, JobEvent.bodyRaised db, JobEvent.sessionClosed db],
       Except.ok ())

/-- Top-level function names defined in services/news_service.py. -/
def newsServiceTopLevelDefs : List String := ["fetch_news_for_ticker", "get_news"]

/-- Model of a Python from-import of one name: succeeds exactly when the
module defines the name, otherwise raises ImportError. -/
def pythonImportFrom (moduleDefs : List String) (name : String) : Except String Unit :=
  if name ∈ moduleDefs then Except.ok ()
  else Except.error ("ImportError: cannot import name " ++ name)

/-- Model of job_fetch_news: import fetch_news_for_top_movers from the news
service, then (only if the import succeeded) run the job wrapper on the
imported body. -/
def job_fetch_news (w : SessionWorld) (fetchBody : Nat → Except String String) :
    SessionWorld × List JobEvent × Except String Unit :=
  match pythonImportFrom newsServiceTopLevelDefs "fetch_news_for_top_movers" with
  | Except.error e => (w, [], Except.error e)
  | Except.ok _ => _job_wrapper w fetchBody

/-! ## Theorems -/

/-- C9: constructing the rate limiter with a non-positive calls_per_second
raises ValueError at construction time, and for every positive
calls_per_second the construction succeeds with the enforced minimum interval
equal to 1 / calls_per_second. -/
theorem rate_limiter_init_spec (cps : ℚ) :
    (cps ≤ 0 → AsyncRateLimiter.init cps = Except.error "calls_per_second must be positive") ∧
    (0 < cps → AsyncRateLimiter.init cps =
      Except.ok { min_interval := 1 / cps, last_call := 0 }) := by
  constructor
  · intro h
    simp [AsyncRateLimiter.init, h]
  · intro h
    simp [AsyncRateLimiter.init, not_le.mpr h]

/-- Witness for C9: at calls_per_second = 0 construction fails, and at
calls_per_second = 2 it succeeds with minimum interval 1/2. -/
theorem rate_limiter_init_spec_witness :
    AsyncRateLimiter.init 0 = Except.error "calls_per_second must be positive" ∧
    AsyncRateLimiter.init 2 = Except.ok { min_interval := 1 / 2, last_call := 0 } :=
  ⟨(rate_limiter_init_spec 0).1 (by norm_num),
   (rate_limiter_init_spec 2).2 (by norm_num)⟩

/-- C8: for every job body and every outcome of that body, the job wrapper
opens a fresh storage session as its first action (before the body runs),
closes it as its last action regardless of whether the body returned or
raised, and itself never raises: any exception of the body is caught inside
the wrapper. -/
theorem job_wrapper_isolation (w : SessionWorld) (fn : Nat → Except String String) :
    (_job_wrapper w fn).2.2 = Except.ok () ∧
    (_job_wrapper w fn).1.openSessions = w.openSessions ∧
    (_job_wrapper w fn).2.1.head? = some (JobEvent.sessionOpened w.nextId) ∧
    (_job_wrapper w fn).2.1.getLast? = some (JobEvent.sessionClosed w.nextId) := by
  cases h : fn w.nextId <;>
    simp [_job_wrapper, SessionLocal, closeSession, h]

/-- C10: every invocation of the news-fetch job raises an ImportError before
the job wrapper is ever entered (no session event happens and the world is
untouched, so no article is stored), because the news service does not define
fetch_news_for_top_movers. -/
theorem job_fetch_news_import_error (w : SessionWorld) (fetchBody : Nat → Except String String) :
    job_fetch_news w fetchBody =
      (w, [], Except.error "ImportError: cannot import name fetch_news_for_top_movers") := by
  rfl

/-! ## Upsert merge steps (services/market_data.py) -/

/-- Merge of one incoming field into one existing field, writing only when
the incoming value is not None (the setattr guard of the fundamentals
upsert). -/
def mergeField {α : Type} (incoming old : Option α) : Option α :=
  match incoming with
  | some v => some v
  | none => old

/-- Incoming partial field set fund_data built by fetch_fundamentals_naver. -/
structure FundData where
  per : Option ℚ
  pbr : Option ℚ
  eps : Option ℤ
  bps : Option ℤ
  dps : Option ℤ
  div_yield : Option ℚ
deriving DecidableEq, Repr

/-- Update step of fetch_fundamentals_naver on an existing same-day row: for
each key of fund_data, setattr runs only when the incoming value is not
None. -/
def applyFundData (existing : MarketFundamentals) (d : FundData) : MarketFundamentals :=
  { existing with
    per := mergeField d.per existing.per
    pbr := mergeField d.pbr existing.pbr
    eps := mergeField d.eps existing.eps
    bps := mergeField d.bps existing.bps
    dps := mergeField d.dps existing.dps
    div_yield := mergeField d.div_yield existing.div_yield }

/-- Incoming price_data field set built by _fetch_prices_from_listing; close
is non-null there because rows with a missing or non-positive close were
already skipped, while every other value may be None (int(...) or None). -/
structure ListingPriceData where
  open_ : Option ℤ
  high : Option ℤ
  low : Option ℤ
  close : ℤ
  volume : Option ℤ
  trading_value : Option ℤ
  change_pct : Option ℚ
deriving DecidableEq, Repr

/-- Update step of _fetch_prices_from_listing (and of the identical price
upsert inside sync_stock_list) on an existing same-day row: setattr runs for
EVERY key of price_data, with no None filter. -/
def applyListingPriceData (existing : DailyPrice) (d : ListingPriceData) : DailyPrice :=
  { existing with
    open_ := d.open_
    high := d.high
    low := d.low
    close := some d.close
    volume := d.volume
    trading_value := d.trading_value
    change_pct := d.change_pct }

/-- Concrete existing daily-price row used to refute C1. -/
def c1ExistingPrice : DailyPrice :=
  { ticker := "005930", date := 0, open_ := some 100, high := some 110,
    low := some 90, close := some 105, volume := some 100,
    trading_value := some 1000, change_pct := some 1 }

/-- Concrete incoming listing field set whose non-close fields are all null. -/
def c1IncomingPrice : ListingPriceData :=
  { open_ := none, high := none, low := none, close := 106, volume := none,
    trading_value := none, change_pct := none }

/-- Concrete existing fundamentals row of the merge scenario. -/
def c1ScenarioExisting : MarketFundamentals :=
  { ticker := "005930", date := 0, market_cap := none, per := some 10,
    pbr := none, div_yield := none, eps := none, bps := none, dps := none }

/-- Concrete incoming fundamentals update of the merge scenario. -/
def c1ScenarioIncoming : FundData :=
  { per := none, pbr := some (3 / 2), eps := none, bps := none, dps := none,
    div_yield := none }

/-! ## Volume spike detection (services/screener_service.py) -/

/-- Volumes entering the average of get_volume_spikes for one ticker: bars
strictly before the latest date, within the preceding 30 calendar days, with
positive volume. -/
def priorWindowVolumes (bars : List DailyPrice) (latest : ℤ) : List ℤ :=
  (bars.filter (fun p => decide (p.date < latest) && decide (latest - 30 ≤ p.date))).filterMap
    (fun p =>
      match p.volume with
      | some v => if 0 < v then some v else none
      | none => none)

/-- The avg aggregate over the prior-window volumes: None when no row
qualifies, otherwise the arithmetic mean. -/
def avgVolume30d (bars : List DailyPrice) (latest : ℤ) : Option ℚ :=
  match priorWindowVolumes bars latest with
  | [] => none
  | vs => some ((vs.sum : ℚ) / vs.length)

/-- Per-ticker ratio step of the get_volume_spikes loop: skip the ticker
(continue) when avg_vol is None or zero, otherwise divide the latest volume
by the average. -/
def volumeSpikeRatio (bars : List DailyPrice) (latest : ℤ) (todayVolume : ℤ) : Option ℚ :=
  match avgVolume30d bars latest with
  | none => none
  | some a => if a = 0 then none else some ((todayVolume : ℚ) / a)

/-- Qualification test of get_volume_spikes: the ticker is kept exactly when
a ratio was computed and it reaches min_ratio. -/
def volumeSpikeQualifies (bars : List DailyPrice) (latest : ℤ) (todayVolume : ℤ)
    (min_ratio : ℚ) : Bool :=
  match volumeSpikeRatio bars latest todayVolume with
  | none => false
  | some r => decide (min_ratio ≤ r)

/-- Default value of the min_ratio parameter of get_volume_spikes. -/
def get_volume_spikes_min_ratio_default : ℚ := 2

/-- Merging an absent incoming field keeps the old value. -/
theorem mergeField_of_none {α : Type} {i : Option α} (o : Option α) (h : i = none) :
    mergeField i o = o := by
  subst h; rfl

/-- Merging a present incoming field writes it. -/
theorem mergeField_of_ne {α : Type} {i : Option α} (o : Option α) (h : i ≠ none) :
    mergeField i o = i := by
  cases i with
  | none => exact absurd rfl h
  | some v => rfl

/-- Counterexample to C1: the daily-price upsert in the listing fetch does
not keep existing fields whose incoming value is null.  An existing row with
volume = 100 that receives an incoming partial field set with volume = None
ends with volume = None, so nulls do clobber on that upsert path. -/
theorem c1_listing_upsert_clobbers :
    c1ExistingPrice.volume = some 100 ∧
    c1IncomingPrice.volume = none ∧
    (applyListingPriceData c1ExistingPrice c1IncomingPrice).volume = none :=
  ⟨rfl, rfl, rfl⟩

/-- C1 amended: in the fundamentals upsert, when a same-day row exists only
the non-null incoming fields are written and every field whose incoming
value is null keeps its previous value (in particular an existing row with
per = 10 and null pbr updated with null per and pbr = 1.5 ends with per = 10
and pbr = 1.5); the daily-price upsert in the listing fetch instead writes
every field of its incoming field set into the existing row, nulls
included. -/
theorem c1_upsert_merge_semantics (e : MarketFundamentals) (d : FundData)
    (ep : DailyPrice) (dp : ListingPriceData) :
    (d.per = none → (applyFundData e d).per = e.per) ∧
    (d.per ≠ none → (applyFundData e d).per = d.per) ∧
    (d.pbr = none → (applyFundData e d).pbr = e.pbr) ∧
    (d.pbr ≠ none → (applyFundData e d).pbr = d.pbr) ∧
    (d.eps = none → (applyFundData e d).eps = e.eps) ∧
    (d.eps ≠ none → (applyFundData e d).eps = d.eps) ∧
    (d.bps = none → (applyFundData e d).bps = e.bps) ∧
    (d.bps ≠ none → (applyFundData e d).bps = d.bps) ∧
    (d.dps = none → (applyFundData e d).dps = e.dps) ∧
    (d.dps ≠ none → (applyFundData e d).dps = d.dps) ∧
    (d.div_yield = none → (applyFundData e d).div_yield = e.div_yield) ∧
    (d.div_yield ≠ none → (applyFundData e d).div_yield = d.div_yield) ∧
    ((applyFundData e d).ticker = e.ticker ∧ (applyFundData e d).date = e.date ∧
      (applyFundData e d).market_cap = e.market_cap) ∧
    ((applyFundData c1ScenarioExisting c1ScenarioIncoming).per = some 10 ∧
      (applyFundData c1ScenarioExisting c1ScenarioIncoming).pbr = some (3 / 2)) ∧
    ((applyListingPriceData ep dp).open_ = dp.open_ ∧
      (applyListingPriceData ep dp).high = dp.high ∧
      (applyListingPriceData ep dp).low = dp.low ∧
      (applyListingPriceData ep dp).close = some dp.close ∧
      (applyListingPriceData ep dp).volume = dp.volume ∧
      (applyListingPriceData ep dp).trading_value = dp.trading_value ∧
      (applyListingPriceData ep dp).change_pct = dp.change_pct) :=
  ⟨fun h => mergeField_of_none e.per h,
   fun h => mergeField_of_ne e.per h,
   fun h => mergeField_of_none e.pbr h,
   fun h => mergeField_of_ne e.pbr h,
   fun h => mergeField_of_none e.eps h,
   fun h => mergeField_of_ne e.eps h,
   fun h => mergeField_of_none e.bps h,
   fun h => mergeField_of_ne e.bps h,
   fun h => mergeField_of_none e.dps h,
   fun h => mergeField_of_ne e.dps h,
   fun h => mergeField_of_none e.div_yield h,
   fun h => mergeField_of_ne e.div_yield h,
   ⟨rfl, rfl, rfl⟩,
   ⟨rfl, rfl⟩,
   ⟨rfl, rfl, rfl, rfl, rfl, rfl, rfl⟩⟩

/-- Witness for the amended C1: the merge scenario instantiated, with the
null-incoming hypothesis and the non-null-incoming hypothesis both
discharged at the concrete rows. -/
theorem c1_upsert_merge_semantics_witness :
    (applyFundData c1ScenarioExisting c1ScenarioIncoming).per = some 10 ∧
    (applyFundData c1ScenarioExisting c1ScenarioIncoming).pbr = some (3 / 2) := by
  have h := c1_upsert_merge_semantics c1ScenarioExisting c1ScenarioIncoming
    c1ExistingPrice c1IncomingPrice
  exact ⟨h.1 rfl, h.2.2.2.1 (by simp [c1ScenarioIncoming])⟩

/-- C3: in volume-spike detection, when the prior 30-calendar-day average of
positive volumes is undefined or zero the ticker is skipped with no ratio
computed; otherwise the ratio is the latest volume divided by that average,
where the average is the arithmetic mean of the positive prior-window
volumes, and the ticker qualifies exactly when the ratio is at least the
caller-supplied threshold, whose default is 2. -/
theorem volume_spike_spec (bars : List DailyPrice) (latest : ℤ) (v : ℤ) (t : ℚ) :
    (avgVolume30d bars latest = none → volumeSpikeRatio bars latest v = none) ∧
    (avgVolume30d bars latest = some 0 → volumeSpikeRatio bars latest v = none) ∧
    (∀ a : ℚ, avgVolume30d bars latest = some a → a ≠ 0 →
      volumeSpikeRatio bars latest v = some ((v : ℚ) / a)) ∧
    (priorWindowVolumes bars latest ≠ [] →
      avgVolume30d bars latest =
        some (((priorWindowVolumes bars latest).sum : ℚ) /
          (priorWindowVolumes bars latest).length)) ∧
    (volumeSpikeQualifies bars latest v t = true ↔
      ∃ r : ℚ, volumeSpikeRatio bars latest v = some r ∧ t ≤ r) ∧
    get_volume_spikes_min_ratio_default = 2 := by
  refine ⟨?_, ?_, ?_, ?_, ?_, rfl⟩
  · intro h
    simp [volumeSpikeRatio, h]
  · intro h
    simp [volumeSpikeRatio, h]
  · intro a ha hne
    simp [volumeSpikeRatio, ha, hne]
  · intro hne
    cases hvs : priorWindowVolumes bars latest with
    | nil => exact absurd hvs hne
    | cons x xs => simp [avgVolume30d, hvs]
  · unfold volumeSpikeQualifies
    cases hr : volumeSpikeRatio bars latest v with
    | none => simp
    | some r => simp

/-- Concrete two-bar history used to witness C3. -/
def c3Bars : List DailyPrice :=
  [{ ticker := "005930", date := 8, open_ := none, high := none, low := none,
     close := some 10, volume := some 100, trading_value := none, change_pct := none },
   { ticker := "005930", date := 9, open_ := none, high := none, low := none,
     close := some 10, volume := some 300, trading_value := none, change_pct := none }]

/-- Witness for C3: with prior volumes 100 and 300 and latest volume 400 the
average is 200, the ratio is exactly 2, and the ticker qualifies at the
default threshold 2. -/
theorem volume_spike_spec_witness :
    volumeSpikeRatio c3Bars 10 400 = some 2 ∧
    volumeSpikeQualifies c3Bars 10 400 2 = true := by
  have h := volume_spike_spec c3Bars 10 400 2
  have hvols : priorWindowVolumes c3Bars 10 = [100, 300] := by rfl
  have havg : avgVolume30d c3Bars 10 = some 200 := by
    rw [avgVolume30d, hvols]
    norm_num
  have hr : volumeSpikeRatio c3Bars 10 400 = some 2 := by
    have h2 := h.2.2.1 200 havg (by norm_num)
    rw [h2]
    norm_num
  exact ⟨hr, (h.2.2.2.2.1).mpr ⟨2, hr, le_refl 2⟩⟩

/-! ## Momentum scorer (services/momentum_service.py) -/

/-- Linear normalization of a feature value to the 0-1 range against fixed
low/high bounds, clamping values outside the range to 0 or 1. -/
def _normalize (value low high : ℚ) : ℚ :=
  if high = low then 1 / 2
  else min (max ((value - low) / (high - low)) 0) 1

/-- The max aggregate over a list of integers: None on the empty list. -/
def maxFold (xs : List ℤ) : Option ℤ :=
  xs.foldl
    (fun acc x =>
      match acc with
      | none => some x
      | some m => some (if m < x then x else m))
    none

/-- Latest trade date of the ticker (the max aggregate); None when the
ticker has no bar at all. -/
def momLatestDate (table : List DailyPrice) : Option ℤ :=
  maxFold (table.map (fun p => p.date))

/-- The recent-prices query of calculate_momentum_score: bars dated within
90 days of the latest date, in ascending date order (the table is the
stored history of one ticker in ascending date order). -/
def momWindow (table : List DailyPrice) (latest : ℤ) : List DailyPrice :=
  table.filter (fun p => decide (latest - 90 ≤ p.date))

/-- Closes kept by the scorer: present and positive. -/
def posCloses (prices : List DailyPrice) : List ℤ :=
  prices.filterMap (fun p =>
    match p.close with
    | some c => if 0 < c then some c else none
    | none => none)

/-- Volumes kept by the scorer: present and positive. -/
def posVolumes (prices : List DailyPrice) : List ℤ :=
  prices.filterMap (fun p =>
    match p.volume with
    | some v => if 0 < v then some v else none
    | none => none)

/-- Python negative indexing xs[-k] (used with 1 ≤ k ≤ length). -/
def negIdx (xs : List ℤ) (k : Nat) : ℤ := xs.getD (xs.length - k) 0

/-- The 52-week max-high query: maximum of the high column over bars within
the trailing 52 weeks (364 days); None when no such value exists. -/
def maxHigh52w (table : List DailyPrice) (latest : ℤ) : Option ℤ :=
  maxFold ((table.filter (fun p => decide (latest - 364 ≤ p.date))).filterMap
    (fun p => p.high))

/-- Count of immediately preceding strictly-increasing steps, walking the
reversed close list from the most recent bar backwards and stopping at the
first non-increase. -/
def consecutiveUpFromEnd : List ℤ → Nat
  | [] => 0
  | [_] => 0
  | a :: b :: rest => if b < a then 1 + consecutiveUpFromEnd (b :: rest) else 0

/-- The consecutive-up-days loop of calculate_momentum_score. -/
def consecutiveUp (closes : List ℤ) : Nat := consecutiveUpFromEnd closes.reverse

/-- Python round() to the nearest integer on an exact rational: half-to-even
(banker) rounding. -/
def pyRoundHalfEven (x : ℚ) : ℤ :=
  if x - ⌊x⌋ < 1 / 2 then ⌊x⌋
  else if 1 / 2 < x - ⌊x⌋ then ⌊x⌋ + 1
  else if ⌊x⌋ % 2 = 0 then ⌊x⌋ else ⌊x⌋ + 1

/-- Python round(x, 1): round to one decimal place. -/
def pyRound1 (x : ℚ) : ℚ := (pyRoundHalfEven (x * 10) : ℚ) / 10

/-- Final line of calculate_momentum_score: scale the weighted sum to 0-100,
clamp, and round to one decimal. -/
def clampScore (score : ℚ) : ℚ := pyRound1 (min (max (score * 100) 0) 100)

/-- Model of calculate_momentum_score over the stored bars of one ticker. -/
def calculate_momentum_score (table : List DailyPrice) : Option ℚ :=
  match momLatestDate table with
  | none => none
  | some latest =>
    let prices := momWindow table latest
    if prices.length < 10 then none
    else
      let closes := posCloses prices
      let volumes := posVolumes prices
      if closes.length < 10 ∨ volumes.length < 10 then none
      else
        let current : ℚ := (negIdx closes 1 : ℚ)
        let score1 : ℚ :=
          if 6 ≤ closes.length then
            _normalize ((current - (negIdx closes 6 : ℚ)) / (negIdx closes 6 : ℚ) * 100)
              (-10) 15 * (15 / 100)
          else 0
        let score2 : ℚ :=
          if 21 ≤ closes.length then
            _normalize ((current - (negIdx closes 21 : ℚ)) / (negIdx closes 21 : ℚ) * 100)
              (-20) 30 * (20 / 100)
          else 0
        let score3 : ℚ :=
          if 20 ≤ volumes.length then
            let vol_5d : ℚ := ((volumes.drop (volumes.length - 5)).sum : ℚ) / 5
            let vol_20d : ℚ := ((volumes.drop (volumes.length - 20)).sum : ℚ) / 20
            let vol_ratio : ℚ := if 0 < vol_20d then vol_5d / vol_20d else 1
            _normalize vol_ratio (1 / 2) 3 * (20 / 100)
          else 0
        let score4 : ℚ :=
          if 20 ≤ closes.length then
            let ma_20 : ℚ := ((closes.drop (closes.length - 20)).sum : ℚ) / 20
            _normalize ((current - ma_20) / ma_20 * 100) (-10) 15 * (15 / 100)
          else 0
        let score5 : ℚ :=
          if 60 ≤ closes.length then
            let ma_60 : ℚ := ((closes.drop (closes.length - 60)).sum : ℚ) / 60
            _normalize ((current - ma_60) / ma_60 * 100) (-15) 25 * (10 / 100)
          else 0
        let score6 : ℚ :=
          match maxHigh52w table latest with
          | some hi =>
            if 0 < hi then _normalize (current / (hi : ℚ) * 100) 60 100 * (10 / 100) else 0
          | none => 0
        let score7 : ℚ := _normalize (consecutiveUp closes : ℚ) 0 7 * (10 / 100)
        let score := score1 + score2 + score3 + score4 + score5 + score6 + score7
        some (clampScore score)

/-- The linear normalization is clamped to the closed unit interval. -/
theorem _normalize_mem (value low high : ℚ) :
    0 ≤ _normalize value low high ∧ _normalize value low high ≤ 1 := by
  unfold _normalize
  split_ifs with h
  · norm_num
  · exact ⟨le_min (le_max_right _ _) zero_le_one, min_le_right _ _⟩

/-- Banker rounding never moves a value down by more than a half. -/
theorem pyRoundHalfEven_ge (x : ℚ) : x - 1 / 2 ≤ (pyRoundHalfEven x : ℚ) := by
  have h0 : (⌊x⌋ : ℚ) ≤ x := Int.floor_le x
  have h1 : x < ⌊x⌋ + 1 := Int.lt_floor_add_one x
  unfold pyRoundHalfEven
  split_ifs with ha hb hc
  · linarith
  · push_cast
    linarith
  · linarith [not_lt.mp hb]
  · push_cast
    linarith [not_lt.mp hb]

/-- Banker rounding never moves a value up by more than a half. -/
theorem pyRoundHalfEven_le (x : ℚ) : (pyRoundHalfEven x : ℚ) ≤ x + 1 / 2 := by
  have h0 : (⌊x⌋ : ℚ) ≤ x := Int.floor_le x
  have h1 : x < ⌊x⌋ + 1 := Int.lt_floor_add_one x
  unfold pyRoundHalfEven
  split_ifs with ha hb hc
  · linarith
  · push_cast
    linarith
  · linarith
  · push_cast
    linarith [not_lt.mp ha]

/-- The final clamp-and-round step always lands on a one-decimal value
inside the closed interval from 0 to 100. -/
theorem clampScore_bounds (s : ℚ) :
    (∃ z : ℤ, clampScore s = (z : ℚ) / 10) ∧ 0 ≤ clampScore s ∧ clampScore s ≤ 100 := by
  have hy0 : 0 ≤ min (max (s * 100) 0) 100 :=
    le_min (le_max_right (s * 100) 0) (by norm_num)
  have hy1 : min (max (s * 100) 0) 100 ≤ 100 := min_le_right _ _
  have hge := pyRoundHalfEven_ge (min (max (s * 100) 0) 100 * 10)
  have hle := pyRoundHalfEven_le (min (max (s * 100) 0) 100 * 10)
  have hz0 : (0 : ℤ) ≤ pyRoundHalfEven (min (max (s * 100) 0) 100 * 10) := by
    have h : ((-1 : ℤ) : ℚ) < (pyRoundHalfEven (min (max (s * 100) 0) 100 * 10) : ℚ) := by
      push_cast
      nlinarith
    have h2 : (-1 : ℤ) < pyRoundHalfEven (min (max (s * 100) 0) 100 * 10) := by
      exact_mod_cast h
    omega
  have hz1 : pyRoundHalfEven (min (max (s * 100) 0) 100 * 10) ≤ 1000 := by
    have h : (pyRoundHalfEven (min (max (s * 100) 0) 100 * 10) : ℚ) < ((1001 : ℤ) : ℚ) := by
      push_cast
      nlinarith
    have h2 : pyRoundHalfEven (min (max (s * 100) 0) 100 * 10) < (1001 : ℤ) := by
      exact_mod_cast h
    omega
  refine ⟨⟨pyRoundHalfEven (min (max (s * 100) 0) 100 * 10), rfl⟩, ?_, ?_⟩
  · have : (0 : ℚ) ≤ (pyRoundHalfEven (min (max (s * 100) 0) 100 * 10) : ℚ) := by
      exact_mod_cast hz0
    unfold clampScore pyRound1
    linarith
  · have : (pyRoundHalfEven (min (max (s * 100) 0) 100 * 10) : ℚ) ≤ 1000 := by
      exact_mod_cast hz1
    unfold clampScore pyRound1
    linarith

/-- C2: each momentum feature contribution is normalized into the closed
unit interval before weighting; every defined momentum score is a
one-decimal value between 0 and 100; and the score is undefined (None, not
an exception) when the ticker has no bar, and whenever the 90-day window
holds fewer than 10 bars, fewer than 10 positive closes, or fewer than 10
positive volumes. -/
theorem momentum_score_spec :
    (∀ value low high : ℚ,
      0 ≤ _normalize value low high ∧ _normalize value low high ≤ 1) ∧
    (∀ (table : List DailyPrice) (s : ℚ), calculate_momentum_score table = some s →
      (∃ z : ℤ, s = (z : ℚ) / 10) ∧ 0 ≤ s ∧ s ≤ 100) ∧
    (∀ table : List DailyPrice, momLatestDate table = none →
      calculate_momentum_score table = none) ∧
    (∀ (table : List DailyPrice) (latest : ℤ), momLatestDate table = some latest →
      ((momWindow table latest).length < 10 ∨
        (posCloses (momWindow table latest)).length < 10 ∨
        (posVolumes (momWindow table latest)).length < 10) →
      calculate_momentum_score table = none) := by
  refine ⟨_normalize_mem, ?_, ?_, ?_⟩
  · intro table s h
    cases hld : momLatestDate table with
    | none =>
      simp [calculate_momentum_score, hld] at h
    | some latest =>
      simp only [calculate_momentum_score, hld] at h
      by_cases hlen : (momWindow table latest).length < 10
      · rw [if_pos hlen] at h
        exact Option.noConfusion h
      · rw [if_neg hlen] at h
        by_cases hcv : (posCloses (momWindow table latest)).length < 10 ∨
            (posVolumes (momWindow table latest)).length < 10
        · rw [if_pos hcv] at h
          exact Option.noConfusion h
        · rw [if_neg hcv] at h
          rw [Option.some.injEq] at h
          subst h
          exact clampScore_bounds _
  · intro table h
    simp [calculate_momentum_score, h]
  · intro table latest hld hbad
    simp only [calculate_momentum_score, hld]
    by_cases hlen : (momWindow table latest).length < 10
    · rw [if_pos hlen]
    · have hcv : (posCloses (momWindow table latest)).length < 10 ∨
          (posVolumes (momWindow table latest)).length < 10 := by
        rcases hbad with hb | hb | hb
        · exact absurd hb hlen
        · exact Or.inl hb
        · exact Or.inr hb
      rw [if_neg hlen, if_pos hcv]

/-- Builder for a close/volume bar used in the C2 witness history. -/
def c2Bar (d : ℤ) (c v : ℤ) : DailyPrice :=
  { ticker := "005930", date := d, open_ := none, high := none, low := none,
    close := some c, volume := some v, trading_value := none, change_pct := none }

/-- Ten flat bars: a history whose momentum score is defined. -/
def c2Table : List DailyPrice :=
  [c2Bar 1 100 1, c2Bar 2 100 1, c2Bar 3 100 1, c2Bar 4 100 1, c2Bar 5 100 1,
   c2Bar 6 100 1, c2Bar 7 100 1, c2Bar 8 100 1, c2Bar 9 100 1, c2Bar 10 100 1]

/-- A single-bar history: too short for a momentum score. -/
def c2ShortTable : List DailyPrice := [c2Bar 1 100 1]

/-- Witness for C2: the ten-flat-bar history scores exactly 6.0 (a
one-decimal value inside the bounds), and the single-bar history yields
None. -/
theorem momentum_score_spec_witness :
    calculate_momentum_score c2Table = some 6 ∧
    (∃ z : ℤ, (6 : ℚ) = (z : ℚ) / 10) ∧ (0 : ℚ) ≤ 6 ∧ (6 : ℚ) ≤ 100 ∧
    calculate_momentum_score c2ShortTable = none := by
  have hsome : calculate_momentum_score c2Table = some 6 := by
    have h0 : c2Table.length = 10 := by decide
    have h1 : momLatestDate c2Table = some 10 := by decide
    have h2 : momWindow c2Table 10 = c2Table := by decide
    have h3 : posCloses c2Table = [100, 100, 100, 100, 100, 100, 100, 100, 100, 100] := by
      decide
    have h4 : posVolumes c2Table = [1, 1, 1, 1, 1, 1, 1, 1, 1, 1] := by decide
    have h5 : maxHigh52w c2Table 10 = none := by decide
    have h6 : consecutiveUp [100, 100, 100, 100, 100, 100, 100, 100, 100, 100] = 0 := by
      decide
    have h7 : negIdx [100, 100, 100, 100, 100, 100, 100, 100, 100, 100] 1 = 100 := by decide
    have h8 : negIdx [100, 100, 100, 100, 100, 100, 100, 100, 100, 100] 6 = 100 := by decide
    simp only [calculate_momentum_score, h0, h1, h2, h3, h4, h5, h6, h7, h8]
    norm_num [_normalize, clampScore, pyRound1, pyRoundHalfEven, min_def, max_def]
  obtain ⟨hz, hge, hle⟩ := momentum_score_spec.2.1 c2Table 6 hsome
  have hnone := momentum_score_spec.2.2.2 c2ShortTable 1 (by decide) (Or.inl (by decide))
  exact ⟨hsome, hz, hge, hle, hnone⟩

/-! ## Disclosure store and collector (services/dart_service.py) -/

/-- Base URL prefix of a disclosure viewer link. -/
def DART_BASE_URL : String := "https://dart.fss.or.kr/dsaf001/main.do?rcpNo="

/-- One row of the external dart.list result frame. -/
structure DartListRow where
  rcept_no : String
  corp_code : String
  corp_name : String
  report_nm : String
  flr_nm : String
  rcept_dt : Option ℤ
  corp_cls : String
deriving DecidableEq, Repr

/-- Construction of a DartDisclosure from an external row inside
fetch_disclosures_for_ticker: the linked ticker is the queried one. -/
def rowToDisclosure (ticker : String) (r : DartListRow) : DartDisclosure :=
  { rcept_no := r.rcept_no, ticker := some ticker, report_nm := r.report_nm,
    flr_nm := r.flr_nm, rcept_dt := r.rcept_dt,
    disclosure_url := DART_BASE_URL ++ r.rcept_no }

/-- Descending filing-date order used by the order_by of get_disclosures; a
row with a null date sorts after every dated row. -/
def discBefore (a b : DartDisclosure) : Bool :=
  match a.rcept_dt, b.rcept_dt with
  | some x, some y => decide (y ≤ x)
  | some _, none => true
  | none, some _ => false
  | none, none => true

/-- Insertion into a descending-by-date list. -/
def insertByDate (x : DartDisclosure) : List DartDisclosure → List DartDisclosure
  | [] => [x]
  | y :: ys => if discBefore x y then x :: y :: ys else y :: insertByDate x ys

/-- Sort of the filtered disclosures by filing date descending. -/
def sortByDateDesc : List DartDisclosure → List DartDisclosure
  | [] => []
  | x :: xs => insertByDate x (sortByDateDesc xs)

/-- Model of get_disclosures: filter the store by linked ticker and by
filing-date bounds when those parameters are given (a SQL comparison with a
null filing date is false), order by filing date descending, and apply the
limit. -/
def get_disclosures (store : List DartDisclosure) (ticker : Option String)
    (start_date end_date : Option ℤ) (limit : Nat) : List DartDisclosure :=
  let t1 :=
    match ticker with
    | some t => store.filter (fun d => d.ticker == some t)
    | none => store
  let t2 :=
    match start_date with
    | some sd =>
      t1.filter (fun d =>
        match d.rcept_dt with
        | some r => decide (sd ≤ r)
        | none => false)
    | none => t1
  let t3 :=
    match end_date with
    | some ed =>
      t2.filter (fun d =>
        match d.rcept_dt with
        | some r => decide (r ≤ ed)
        | none => false)
    | none => t2
  (sortByDateDesc t3).take limit

/-- Model of fetch_disclosures_for_ticker, with the DART_API_KEY setting and
the outcome of the external dart.list call made explicit.  _get_dart raises
RuntimeError (outside any try block) when the key is unset; a failure of the
external call itself is caught and treated as zero rows; otherwise each row
with a fresh non-empty receipt number is appended to the store.  The value
is the store after the call. -/
def fetch_disclosures_for_ticker (key : String)
    (dartResult : Except String (List DartListRow))
    (store : List DartDisclosure) (ticker : String) : Except String (List DartDisclosure) :=
  if key = "" then Except.error "DART_API_KEY is not set"
  else
    match dartResult with
    | Except.error _ => Except.ok store
    | Except.ok rows =>
      Except.ok (rows.foldl
        (fun st r =>
          if r.rcept_no = "" then st
          else if st.any (fun d => d.rcept_no == r.rcept_no) then st
          else st ++ [rowToDisclosure ticker r])
        store)

/-- Disclosure step of analyze_why_moving: read the store over the window
from target_date - 3 to target_date; when that read is empty, call the
collector for that ticker and window (its errors are NOT caught here) and
re-read the same window.  dartList gives the outcome of the external call as
a function of the queried ticker and window bounds. -/
def analyzeDisclosureStep (key : String)
    (dartList : String → ℤ → ℤ → Except String (List DartListRow))
    (store : List DartDisclosure) (ticker : String) (target_date : ℤ) :
    Except String (List DartDisclosure) :=
  let disc_start := target_date - 3
  let ds := get_disclosures store (some ticker) (some disc_start) (some target_date) 20
  if ds.isEmpty then
    match fetch_disclosures_for_ticker key (dartList ticker disc_start target_date)
        store ticker with
    | Except.error e => Except.error e
    | Except.ok store2 =>
      Except.ok (get_disclosures store2 (some ticker) (some disc_start) (some target_date) 20)
  else Except.ok ds

/-! ## Sector comparison (services/analysis_service.py) -/

/-- Average same-day change of the collected peer change values. -/
def sectorAvg (changes : List ℚ) : ℚ := changes.sum / changes.length

/-- The positive_ratio of _get_sector_comparison: the fraction of peer
change values STRICTLY GREATER THAN 1, as written in the source. -/
def sectorPositiveRatio (changes : List ℚ) : ℚ :=
  ((changes.filter (fun c => decide (1 < c))).length : ℚ) / changes.length

/-- The is_sector_wide flag: positive_ratio > 0.6 and sector_avg > 1. -/
def is_sector_wide (changes : List ℚ) : Bool :=
  decide ((6 / 10 : ℚ) < sectorPositiveRatio changes) && decide (1 < sectorAvg changes)

/-- Ratio of peers whose change value is positive, following the words of
the claim (fraction of peers whose change percent is positive) rather than
the source; used only to compare the claim against the code. -/
def claimPositiveRatio (changes : List ℚ) : ℚ :=
  ((changes.filter (fun c => decide (0 < c))).length : ℚ) / changes.length

/-- The sector-wide flag as the claim words it: positive fraction above 60
percent and average above 1. -/
def is_sector_wide_claim (changes : List ℚ) : Bool :=
  decide ((6 / 10 : ℚ) < claimPositiveRatio changes) && decide (1 < sectorAvg changes)

/-- Concrete peer change values separating the code flag from the claim
flag: every value is positive, the average exceeds 1, yet only one of six
values exceeds 1. -/
def c5Changes : List ℚ := [1 / 2, 1 / 2, 1 / 2, 1 / 2, 1 / 2, 10]

/-! ## News fetch and de-duplication (services/news_service.py) -/

/-- Base URL prefixed to relative article links. -/
def NAVER_NEWS_READ_URL : String := "https://finance.naver.com"

/-- One scraped news table row after HTML parsing: its title text, link
target, press name and optional parsed timestamp.  Rows whose cells or link
tag were missing are represented by empty title or href, which the loop
skips. -/
structure ScrapedNewsRow where
  title : String
  href : String
  source : String
  published : Option ℤ
deriving DecidableEq, Repr

/-- A link target is relative exactly when its first character is a slash
(the startswith test of the source). -/
def hrefIsRelative (href : String) : Bool :=
  match href.data with
  | [] => false
  | c :: _ => c == Char.ofNat 47

/-- The article_url computed for a scraped row. -/
def newsRowUrl (r : ScrapedNewsRow) : String :=
  if hrefIsRelative r.href then NAVER_NEWS_READ_URL ++ r.href else r.href

/-- State of the fetch_news_for_ticker loop: the in-batch seen_urls set and
the article store (pending session adds included). -/
structure NewsFetchState where
  seen : List String
  store : List NewsArticle
deriving DecidableEq, Repr

/-- Body of the fetch_news_for_ticker row loop: skip rows with no usable
title or link; skip a URL already seen in this batch (checked BEFORE the
database lookup, and recorded even when the article already exists); then
skip a URL already stored; otherwise add the article. -/
def processNewsRow (ticker : String) (st : NewsFetchState) (r : ScrapedNewsRow) :
    NewsFetchState :=
  if r.title = "" then st
  else if r.href = "" then st
  else if newsRowUrl r ∈ st.seen then st
  else if st.store.any (fun a => a.url == newsRowUrl r) then
    { seen := newsRowUrl r :: st.seen, store := st.store }
  else
    { seen := newsRowUrl r :: st.seen,
      store := st.store ++
        [{ ticker := some ticker, title := some r.title, source := some r.source,
           url := newsRowUrl r, published_at := r.published }] }

/-- Rows contributed by the paginated page fetches: pages are consumed in
order and a page fetch error stops the pagination (break), discarding the
remaining pages. -/
def pagesRows : List (Except String (List ScrapedNewsRow)) → List ScrapedNewsRow
  | [] => []
  | Except.error _ :: _ => []
  | Except.ok rows :: rest => rows ++ pagesRows rest

/-- Model of fetch_news_for_ticker: process every scraped row of the fetched
pages against the store, starting from an empty seen_urls set. -/
def fetch_news_for_ticker (ticker : String) (store : List NewsArticle)
    (pages : List (Except String (List ScrapedNewsRow))) : NewsFetchState :=
  (pagesRows pages).foldl (processNewsRow ticker) { seen := [], store := store }

/-- Number of stored articles carrying a given URL. -/
def countUrl (store : List NewsArticle) (u : String) : Nat :=
  (store.filter (fun a => a.url == u)).length

/-- Membership in a date insertion. -/
theorem mem_insertByDate {a x : DartDisclosure} {l : List DartDisclosure} :
    a ∈ insertByDate x l ↔ a = x ∨ a ∈ l := by
  induction l with
  | nil => simp [insertByDate]
  | cons y ys ih =>
    simp only [insertByDate]
    split_ifs with h
    · simp [List.mem_cons]
    · simp only [List.mem_cons, ih]
      tauto

/-- Sorting by date keeps exactly the members. -/
theorem mem_sortByDateDesc {a : DartDisclosure} {l : List DartDisclosure} :
    a ∈ sortByDateDesc l ↔ a ∈ l := by
  induction l with
  | nil => simp [sortByDateDesc]
  | cons x xs ih => simp [sortByDateDesc, mem_insertByDate, ih]

/-- Every disclosure returned by a fully-bounded get_disclosures read is
linked to the queried ticker and dated inside the queried bounds. -/
theorem get_disclosures_window {store : List DartDisclosure} {t : String} {sd ed : ℤ}
    {lim : Nat} {d : DartDisclosure}
    (h : d ∈ get_disclosures store (some t) (some sd) (some ed) lim) :
    d.ticker = some t ∧ ∃ r : ℤ, d.rcept_dt = some r ∧ sd ≤ r ∧ r ≤ ed := by
  unfold get_disclosures at h
  have h2 := List.take_subset _ _ h
  rw [mem_sortByDateDesc] at h2
  simp only [List.mem_filter] at h2
  obtain ⟨⟨⟨hmem, ht⟩, hs⟩, he⟩ := h2
  refine ⟨eq_of_beq ht, ?_⟩
  cases hr : d.rcept_dt with
  | none =>
    simp only [hr] at hs
    exact absurd hs (by simp)
  | some r =>
    simp only [hr] at hs he
    exact ⟨r, rfl, of_decide_eq_true hs, of_decide_eq_true he⟩

/-- A cached disclosure dated two days AFTER the target date. -/
def c4Disc : DartDisclosure :=
  { rcept_no := "20240101000001", ticker := some "005930", report_nm := "report",
    flr_nm := "filer", rcept_dt := some 2, disclosure_url := "url" }

/-- Counterexample to C4: a disclosure filed at target_date + 2 lies inside
the ±3-day window of the claim, yet the engine returns no disclosure for it
(its read window ends at the target date), and it triggers the collector
even though the claim says the cached ±3-day disclosure should have
prevented that. -/
theorem c4_window_counterexample :
    c4Disc.ticker = some "005930" ∧ c4Disc.rcept_dt = some 2 ∧
    ((0 : ℤ) - 3 ≤ 2 ∧ (2 : ℤ) ≤ 0 + 3) ∧
    analyzeDisclosureStep "apikey" (fun _ _ _ => Except.ok []) [c4Disc] "005930" 0 =
      Except.ok [] := by
  refine ⟨rfl, rfl, by norm_num, ?_⟩
  rfl

/-- C4 amended: the correlation engine reads disclosures whose filing date
lies in the window from target_date - 3 through target_date (three days
back, not ±3), and when that window read is empty it calls the disclosure
collector for exactly that ticker and that window before re-reading the same
window; when the window read is non-empty it returns it without any
collector call. -/
theorem analyze_disclosure_window_spec (key : String)
    (dartList : String → ℤ → ℤ → Except String (List DartListRow))
    (store : List DartDisclosure) (t : String) (target : ℤ) :
    (∀ ds, analyzeDisclosureStep key dartList store t target = Except.ok ds →
      ∀ d ∈ ds, d.ticker = some t ∧
        ∃ r : ℤ, d.rcept_dt = some r ∧ target - 3 ≤ r ∧ r ≤ target) ∧
    (get_disclosures store (some t) (some (target - 3)) (some target) 20 = [] →
      analyzeDisclosureStep key dartList store t target =
        match fetch_disclosures_for_ticker key (dartList t (target - 3) target) store t with
        | Except.error e => Except.error e
        | Except.ok store2 =>
          Except.ok (get_disclosures store2 (some t) (some (target - 3)) (some target) 20)) ∧
    (get_disclosures store (some t) (some (target - 3)) (some target) 20 ≠ [] →
      analyzeDisclosureStep key dartList store t target =
        Except.ok (get_disclosures store (some t) (some (target - 3)) (some target) 20)) := by
  refine ⟨?_, ?_, ?_⟩
  · intro ds h d hd
    unfold analyzeDisclosureStep at h
    by_cases hemp :
        (get_disclosures store (some t) (some (target - 3)) (some target) 20).isEmpty
    · rw [if_pos hemp] at h
      rcases hf : fetch_disclosures_for_ticker key (dartList t (target - 3) target) store t
        with e | store2
      · rw [hf] at h
        exact Except.noConfusion h
      · rw [hf] at h
        rw [Except.ok.injEq] at h
        subst h
        exact get_disclosures_window hd
    · rw [if_neg hemp] at h
      rw [Except.ok.injEq] at h
      subst h
      exact get_disclosures_window hd
  · intro h
    simp only [analyzeDisclosureStep, h, List.isEmpty_nil, if_true]
  · intro h
    unfold analyzeDisclosureStep
    rw [if_neg]
    intro hh
    exact h (List.isEmpty_iff.mp hh)

/-- A cached disclosure dated one day before the target date. -/
def c4HitDisc : DartDisclosure :=
  { rcept_no := "20240101000002", ticker := some "005930", report_nm := "report",
    flr_nm := "filer", rcept_dt := some (-1), disclosure_url := "url" }

/-- Witness for the amended C4: a disclosure one day old is returned from
cache, its date verified inside the back-window; on an empty store the
collector path runs and yields the empty read. -/
theorem analyze_disclosure_window_spec_witness :
    analyzeDisclosureStep "apikey" (fun _ _ _ => Except.ok []) [c4HitDisc] "005930" 0 =
      Except.ok [c4HitDisc] ∧
    c4HitDisc.ticker = some "005930" ∧
    (∃ r : ℤ, c4HitDisc.rcept_dt = some r ∧ (0 : ℤ) - 3 ≤ r ∧ r ≤ 0) ∧
    analyzeDisclosureStep "apikey" (fun _ _ _ => Except.ok []) [] "005930" 0 =
      Except.ok [] := by
  have hga : get_disclosures [c4HitDisc] (some "005930") (some ((0 : ℤ) - 3)) (some 0) 20 =
      [c4HitDisc] := by decide
  have h := analyze_disclosure_window_spec "apikey" (fun _ _ _ => Except.ok [])
    [c4HitDisc] "005930" 0
  have hres : analyzeDisclosureStep "apikey" (fun _ _ _ => Except.ok []) [c4HitDisc]
      "005930" 0 = Except.ok [c4HitDisc] := by
    have h3 := h.2.2 (by rw [hga]; exact fun hh => List.noConfusion hh)
    rw [hga] at h3
    exact h3
  obtain ⟨ht, hwin⟩ := h.1 [c4HitDisc] hres c4HitDisc (by simp)
  have h0 := analyze_disclosure_window_spec "apikey" (fun _ _ _ => Except.ok [])
    [] "005930" 0
  have hempty : analyzeDisclosureStep "apikey" (fun _ _ _ => Except.ok []) [] "005930" 0 =
      Except.ok [] := by
    rw [h0.2.1 (by rfl)]
    rfl
  exact ⟨hres, ht, hwin, hempty⟩

/-- Counterexample to C5: with peer changes [0.5, 0.5, 0.5, 0.5, 0.5, 10]
every peer is positive (fraction 100 percent) and the average is 25/12 > 1,
so the claim flags the move sector-wide; the code does not, because its
positive_ratio counts only changes strictly greater than 1 (here 1 of 6). -/
theorem c5_sector_wide_counterexample :
    is_sector_wide c5Changes = false ∧ is_sector_wide_claim c5Changes = true ∧
    (∀ c ∈ c5Changes, 0 < c) ∧ 1 < sectorAvg c5Changes := by
  refine ⟨?_, ?_, ?_, ?_⟩
  · norm_num [is_sector_wide, sectorPositiveRatio, sectorAvg, c5Changes]
  · norm_num [is_sector_wide_claim, claimPositiveRatio, sectorAvg, c5Changes]
  · intro c hc
    simp only [c5Changes, List.mem_cons, List.not_mem_nil, or_false] at hc
    rcases hc with h | h | h | h | h | h <;> subst h <;> norm_num
  · norm_num [sectorAvg, c5Changes]

/-- C5 amended: for every list of collected peer change values, the
is_sector_wide flag is true if and only if the fraction of values strictly
greater than 1 (that is, peers up more than one percent, not merely
positive) exceeds 60 percent and the average of the values exceeds 1. -/
theorem sector_wide_flag_spec (changes : List ℚ) :
    is_sector_wide changes = true ↔
      (6 / 10 : ℚ) <
        ((changes.filter (fun c => decide (1 < c))).length : ℚ) / changes.length ∧
      1 < changes.sum / changes.length := by
  simp [is_sector_wide, sectorPositiveRatio, sectorAvg]

/-- Descending published-time order used by the order_by of get_news; an
article with no publish date sorts after every dated one (nullslast). -/
def newsBefore (a b : NewsArticle) : Bool :=
  match a.published_at, b.published_at with
  | some x, some y => decide (y ≤ x)
  | some _, none => true
  | none, some _ => false
  | none, none => true

/-- Insertion into a descending-by-published-time list. -/
def insertByPublished (x : NewsArticle) : List NewsArticle → List NewsArticle
  | [] => [x]
  | y :: ys => if newsBefore x y then x :: y :: ys else y :: insertByPublished x ys

/-- Sort of the stored articles by published time descending, nulls last. -/
def sortByPublishedDesc : List NewsArticle → List NewsArticle
  | [] => []
  | x :: xs => insertByPublished x (sortByPublishedDesc xs)

/-- Model of get_news: filter the store by linked ticker when one is given,
order by published time descending with nulls last, and apply the limit. -/
def get_news (store : List NewsArticle) (ticker : Option String) (limit : Nat) :
    List NewsArticle :=
  match ticker with
  | some t => (sortByPublishedDesc (store.filter (fun a => a.ticker == some t))).take limit
  | none => (sortByPublishedDesc store).take limit

/-- News step of analyze_why_moving: read the most recent news for the
ticker; when none is cached, call the news collector (which fetches the
first two pages; the caller passes each page outcome, and page-fetch errors
are caught inside the collector, stopping pagination) and re-read.  No
failure can escape this step: the collector swallows every fetch error. -/
def analyzeNewsStep (ticker : String) (store : List NewsArticle)
    (pages : List (Except String (List ScrapedNewsRow))) :
    Except String (List NewsArticle) :=
  if (get_news store (some ticker) 20).isEmpty then
    Except.ok (get_news (fetch_news_for_ticker ticker store pages).store (some ticker) 20)
  else Except.ok (get_news store (some ticker) 20)

/-- Counterexample to C6: with the DART API key unset and an empty
disclosure cache, the disclosure self-heal of analyze_why_moving raises
RuntimeError out of the collector and the error propagates to the caller of
analyze_why_moving instead of being swallowed. -/
theorem c6_unset_key_propagates :
    analyzeDisclosureStep "" (fun _ _ _ => Except.ok []) [] "005930" 0 =
      Except.error "DART_API_KEY is not set" := by
  rfl

/-- C6 amended: failures of the external fetches themselves during the
cache-miss self-heals of analyze_why_moving are swallowed and never
propagate: a failing DART list call is caught inside the disclosure
collector and treated as zero rows, and a failing news page fetch is caught
inside the news collector (pagination stops, the read returning whatever was
cached or already scraped); but an unset DART API key raises at disclosure
collector entry, outside the try block, and analyze_why_moving does not
catch it, so on a disclosure cache miss that error propagates. -/
theorem analyze_collector_failure_spec (key : String) (e : String)
    (dartList : String → ℤ → ℤ → Except String (List DartListRow))
    (store : List DartDisclosure) (nstore : List NewsArticle)
    (pages rest : List (Except String (List ScrapedNewsRow)))
    (t : String) (target : ℤ) :
    (key ≠ "" →
      fetch_disclosures_for_ticker key (Except.error e) store t = Except.ok store) ∧
    (key ≠ "" →
      ∃ ds, analyzeDisclosureStep key (fun _ _ _ => Except.error e) store t target =
        Except.ok ds) ∧
    (∃ ns, analyzeNewsStep t nstore pages = Except.ok ns) ∧
    (analyzeNewsStep t nstore (Except.error e :: rest) =
      Except.ok (get_news nstore (some t) 20)) ∧
    (key = "" →
      get_disclosures store (some t) (some (target - 3)) (some target) 20 = [] →
      analyzeDisclosureStep key dartList store t target =
        Except.error "DART_API_KEY is not set") := by
  refine ⟨?_, ?_, ?_, ?_, ?_⟩
  · intro hk
    simp [fetch_disclosures_for_ticker, hk]
  · intro hk
    unfold analyzeDisclosureStep
    by_cases hemp :
        (get_disclosures store (some t) (some (target - 3)) (some target) 20).isEmpty
    · rw [if_pos hemp]
      refine ⟨get_disclosures store (some t) (some (target - 3)) (some target) 20, ?_⟩
      simp [fetch_disclosures_for_ticker, hk]
    · rw [if_neg hemp]
      exact ⟨_, rfl⟩
  · unfold analyzeNewsStep
    by_cases hemp : (get_news nstore (some t) 20).isEmpty
    · rw [if_pos hemp]
      exact ⟨_, rfl⟩
    · rw [if_neg hemp]
      exact ⟨_, rfl⟩
  · unfold analyzeNewsStep
    by_cases hemp : (get_news nstore (some t) 20).isEmpty
    · rw [if_pos hemp]
      rfl
    · rw [if_neg hemp]
  · intro hk hemp
    subst hk
    simp only [analyzeDisclosureStep, hemp, List.isEmpty_nil, if_true]
    simp [fetch_disclosures_for_ticker]

/-- Witness for the amended C6: with a set key a failing external DART call
leaves the store unchanged and the disclosure read succeeds; a news fetch
whose first page errors returns the cached (empty) read without raising;
with the key unset the disclosure read raises the RuntimeError message. -/
theorem analyze_collector_failure_spec_witness :
    fetch_disclosures_for_ticker "apikey" (Except.error "boom") [] "005930" =
      Except.ok [] ∧
    (∃ ds, analyzeDisclosureStep "apikey" (fun _ _ _ => Except.error "boom") [] "005930" 0 =
      Except.ok ds) ∧
    analyzeNewsStep "005930" [] [Except.error "boom"] = Except.ok [] ∧
    analyzeDisclosureStep "" (fun _ _ _ => Except.error "boom") [] "005930" 0 =
      Except.error "DART_API_KEY is not set" := by
  have h := analyze_collector_failure_spec "apikey" "boom"
    (fun _ _ _ => Except.error "boom") [] [] [Except.error "boom"] [] "005930" 0
  have h2 := analyze_collector_failure_spec "" "boom"
    (fun _ _ _ => Except.error "boom") [] [] [Except.error "boom"] [] "005930" 0
  have hnews : analyzeNewsStep "005930" [] [Except.error "boom"] = Except.ok [] := by
    rw [h.2.2.2.1]
    rfl
  exact ⟨h.1 (by decide), h.2.1 (by decide), hnews, h2.2.2.2.2 rfl (by rfl)⟩

/-- Appending one article changes the URL count by one exactly for its own
URL. -/
theorem countUrl_append (s : List NewsArticle) (a : NewsArticle) (u : String) :
    countUrl (s ++ [a]) u = countUrl s u + if (a.url == u) = true then 1 else 0 := by
  unfold countUrl
  rw [List.filter_append, List.length_append]
  congr 1
  by_cases h : (a.url == u) = true
  · simp [h]
  · simp [h]

/-- A successful any-test on the store means the URL is already counted. -/
theorem countUrl_pos_of_any {s : List NewsArticle} {u : String}
    (h : s.any (fun a => a.url == u) = true) : 1 ≤ countUrl s u := by
  rw [List.any_eq_true] at h
  obtain ⟨x, hx, hpx⟩ := h
  have hmem : x ∈ s.filter (fun a => a.url == u) := List.mem_filter.mpr ⟨hx, hpx⟩
  unfold countUrl
  exact List.length_pos.mpr (List.ne_nil_of_mem hmem)

/-- A failed any-test on the store means the URL is absent. -/
theorem countUrl_zero_of_any_false {s : List NewsArticle} {u : String}
    (h : s.any (fun a => a.url == u) = false) : countUrl s u = 0 := by
  unfold countUrl
  rw [List.length_eq_zero, List.filter_eq_nil_iff]
  intro a ha
  rw [List.any_eq_false] at h
  exact h a ha

/-- One loop step never removes stored articles of any URL. -/
theorem processNewsRow_mono (t : String) (st : NewsFetchState) (r : ScrapedNewsRow)
    (u : String) :
    countUrl st.store u ≤ countUrl (processNewsRow t st r).store u := by
  unfold processNewsRow
  split_ifs with h1 h2 h3 h4
  · exact le_refl _
  · exact le_refl _
  · exact le_refl _
  · exact le_refl _
  · rw [countUrl_append]
    exact Nat.le_add_right _ _

/-- One loop step preserves the de-duplication invariant: at most one stored
article per URL, and every URL in the in-batch seen set is stored. -/
theorem processNewsRow_inv (t : String) (r : ScrapedNewsRow) (u : String)
    (st : NewsFetchState)
    (h1 : countUrl st.store u ≤ 1)
    (h2 : u ∈ st.seen → 1 ≤ countUrl st.store u) :
    countUrl (processNewsRow t st r).store u ≤ 1 ∧
    (u ∈ (processNewsRow t st r).seen → 1 ≤ countUrl (processNewsRow t st r).store u) := by
  unfold processNewsRow
  split_ifs with ha hb hc hd
  · exact ⟨h1, h2⟩
  · exact ⟨h1, h2⟩
  · exact ⟨h1, h2⟩
  · refine ⟨h1, ?_⟩
    intro hu
    rcases List.mem_cons.mp hu with he | hu2
    · subst he
      exact countUrl_pos_of_any hd
    · exact h2 hu2
  · by_cases hu : u = newsRowUrl r
    · subst hu
      have hzero : countUrl st.store (newsRowUrl r) = 0 :=
        countUrl_zero_of_any_false (Bool.eq_false_iff.mpr hd)
      rw [countUrl_append, hzero]
      have hbeq : ((newsRowUrl r == newsRowUrl r) = true) := beq_self_eq_true _
      constructor
      · simp [hbeq]
      · intro _
        simp [hbeq]
    · have hne : ((newsRowUrl r == u) = true) → False := fun hx => hu (eq_of_beq hx).symm
      rw [countUrl_append]
      have hiter : (if (newsRowUrl r == u) = true then 1 else 0) = 0 := by
        by_cases hx : (newsRowUrl r == u) = true
        · exact absurd hx hne
        · simp [hx]
      rw [hiter, Nat.add_zero]
      refine ⟨h1, ?_⟩
      intro hmem
      rcases List.mem_cons.mp hmem with he | hu2
      · exact absurd he hu
      · exact h2 hu2

/-- Processing a usable row leaves at least one stored article under its
URL. -/
theorem processNewsRow_hit (t : String) (r : ScrapedNewsRow) (st : NewsFetchState)
    (hta : r.title ≠ "") (hhb : r.href ≠ "")
    (h2 : newsRowUrl r ∈ st.seen → 1 ≤ countUrl st.store (newsRowUrl r)) :
    1 ≤ countUrl (processNewsRow t st r).store (newsRowUrl r) := by
  unfold processNewsRow
  rw [if_neg hta, if_neg hhb]
  split_ifs with hc hd
  · exact h2 hc
  · exact countUrl_pos_of_any hd
  · rw [countUrl_append]
    have hbeq : ((newsRowUrl r == newsRowUrl r) = true) := beq_self_eq_true _
    simp [hbeq]

/-- The whole row loop preserves the de-duplication invariant. -/
theorem newsFold_inv (t : String) (u : String) (rows : List ScrapedNewsRow) :
    ∀ st : NewsFetchState, countUrl st.store u ≤ 1 →
      (u ∈ st.seen → 1 ≤ countUrl st.store u) →
      countUrl (rows.foldl (processNewsRow t) st).store u ≤ 1 ∧
      (u ∈ (rows.foldl (processNewsRow t) st).seen →
        1 ≤ countUrl (rows.foldl (processNewsRow t) st).store u) := by
  induction rows with
  | nil => exact fun st h1 h2 => ⟨h1, h2⟩
  | cons r rest ih =>
    intro st h1 h2
    have h3 := processNewsRow_inv t r u st h1 h2
    exact ih _ h3.1 h3.2

/-- The whole row loop never removes stored articles of any URL. -/
theorem newsFold_mono (t : String) (u : String) (rows : List ScrapedNewsRow) :
    ∀ st : NewsFetchState,
      countUrl st.store u ≤ countUrl (rows.foldl (processNewsRow t) st).store u := by
  induction rows with
  | nil => exact fun st => le_refl _
  | cons r rest ih =>
    intro st
    exact le_trans (processNewsRow_mono t st r u) (ih _)

/-- If some usable row of the batch carries the URL, the loop ends with the
URL stored. -/
theorem newsFold_hit (t : String) (u : String) (rows : List ScrapedNewsRow) :
    ∀ st : NewsFetchState, countUrl st.store u ≤ 1 →
      (u ∈ st.seen → 1 ≤ countUrl st.store u) →
      (∃ r ∈ rows, r.title ≠ "" ∧ r.href ≠ "" ∧ newsRowUrl r = u) →
      1 ≤ countUrl (rows.foldl (processNewsRow t) st).store u := by
  induction rows with
  | nil =>
    intro st _ _ hex
    obtain ⟨r, hr, _⟩ := hex
    exact absurd hr (List.not_mem_nil r)
  | cons r rest ih =>
    intro st h1 h2 hex
    obtain ⟨r0, hr0, hv1, hv2, hv3⟩ := hex
    rcases List.mem_cons.mp hr0 with he | hmem
    · subst he
      subst hv3
      have hstep := processNewsRow_hit t r0 st hv1 hv2 h2
      exact le_trans hstep (newsFold_mono t (newsRowUrl r0) rest _)
    · have h3 := processNewsRow_inv t r u st h1 h2
      exact ih _ h3.1 h3.2 ⟨r0, hmem, hv1, hv2, hv3⟩

/-- C7: for every stored news table with at most one article per URL and
every batch of scraped pages, the fetch leaves at most one stored article
per URL; a URL already stored stays stored exactly once (never inserted
again); and a URL carried by at least one usable scraped row ends stored
exactly once, even when several rows of the batch carry it. -/
theorem news_url_dedup (store : List NewsArticle)
    (pages : List (Except String (List ScrapedNewsRow))) (t u : String)
    (hstore : countUrl store u ≤ 1) :
    countUrl (fetch_news_for_ticker t store pages).store u ≤ 1 ∧
    (countUrl store u = 1 → countUrl (fetch_news_for_ticker t store pages).store u = 1) ∧
    ((∃ r ∈ pagesRows pages, r.title ≠ "" ∧ r.href ≠ "" ∧ newsRowUrl r = u) →
      countUrl (fetch_news_for_ticker t store pages).store u = 1) := by
  have hinit2 : u ∈ ({ seen := [], store := store } : NewsFetchState).seen →
      1 ≤ countUrl ({ seen := [], store := store } : NewsFetchState).store u := by
    intro hu
    exact absurd hu (List.not_mem_nil u)
  have hinv := newsFold_inv t u (pagesRows pages) { seen := [], store := store }
    hstore hinit2
  have hmono := newsFold_mono t u (pagesRows pages) { seen := [], store := store }
  refine ⟨hinv.1, ?_, ?_⟩
  · intro hone
    have hge : 1 ≤ countUrl (fetch_news_for_ticker t store pages).store u := by
      calc 1 = countUrl store u := hone.symm
        _ ≤ _ := hmono
    exact le_antisymm hinv.1 hge
  · intro hex
    have hge := newsFold_hit t u (pagesRows pages) { seen := [], store := store }
      hstore hinit2 hex
    exact le_antisymm hinv.1 hge

/-- First scraped row of the witness batch. -/
def c7Row1 : ScrapedNewsRow :=
  { title := "headline one", href := "/news/1", source := "press", published := some 1 }

/-- Second scraped row of the witness batch, sharing the URL of the first. -/
def c7Row2 : ScrapedNewsRow :=
  { title := "headline two", href := "/news/1", source := "press", published := none }

/-- One fetched page holding both duplicate rows. -/
def c7Pages : List (Except String (List ScrapedNewsRow)) := [Except.ok [c7Row1, c7Row2]]

/-- The shared article URL of the witness batch. -/
def c7Url : String := "https://finance.naver.com/news/1"

/-- An article with the witness URL already persisted. -/
def c7Article : NewsArticle :=
  { ticker := some "005930", title := some "old headline", source := some "press",
    url := c7Url, published_at := none }

/-- Witness for C7: two same-URL rows in one batch fed to an empty store end
as exactly one stored article, and fed to a store already holding that URL
they leave exactly one stored article. -/
theorem news_url_dedup_witness :
    countUrl (fetch_news_for_ticker "005930" [] c7Pages).store c7Url = 1 ∧
    countUrl (fetch_news_for_ticker "005930" [c7Article] c7Pages).store c7Url = 1 := by
  have h1 := news_url_dedup [] c7Pages "005930" c7Url (by decide)
  have h2 := news_url_dedup [c7Article] c7Pages "005930" c7Url (by decide)
  exact ⟨h1.2.2 ⟨c7Row1, by decide, by decide, by decide, by decide⟩, h2.2.1 (by decide)⟩
